import Mathlib

/-!
Shallow embedding of the fysiks particle-simulation core
(src/main.rs and src/particle.rs), with the f32 scalar type modelled
by the real numbers.  Every definition mirrors one item of the Rust
source; spec-side restatements used for refinement checks are marked
as such in their doc comments.
-/

namespace Fysiks

/-- Three-component vector of scalars, modelling the glam Vec3 used by the
source (f32 components modelled as reals). -/
@[ext]
structure Vec3 where
  x : ℝ
  y : ℝ
  z : ℝ

namespace Vec3

/-- Model of Vec3::ZERO. -/
def ZERO : Vec3 := ⟨0, 0, 0⟩

instance : Zero Vec3 := ⟨ZERO⟩

instance : Add Vec3 := ⟨fun a b => ⟨a.x + b.x, a.y + b.y, a.z + b.z⟩⟩

instance : Sub Vec3 := ⟨fun a b => ⟨a.x - b.x, a.y - b.y, a.z - b.z⟩⟩

instance : Neg Vec3 := ⟨fun a => ⟨-a.x, -a.y, -a.z⟩⟩

/-- Componentwise scalar multiplication, modelling Vec3 * f32. -/
instance : HMul Vec3 ℝ Vec3 := ⟨fun v s => ⟨v.x * s, v.y * s, v.z * s⟩⟩

/-- Componentwise scalar division, modelling Vec3 / f32. -/
noncomputable instance : HDiv Vec3 ℝ Vec3 := ⟨fun v s => ⟨v.x / s, v.y / s, v.z / s⟩⟩

/-- Model of glam length_squared: the dot product of the vector with
itself. -/
def length_squared (v : Vec3) : ℝ := v.x * v.x + v.y * v.y + v.z * v.z

/-- Model of glam length: the square root of length_squared. -/
noncomputable def length (v : Vec3) : ℝ := Real.sqrt v.length_squared

end Vec3

/-- Machine epsilon of the f32 scalar type: f32 EPSILON is 2 to the
power -23. -/
noncomputable def f32_EPSILON : ℝ := 1 / 2 ^ 23

/-- Model of the constant SIZE from main.rs: Vec3::splat(400.0). -/
def SIZE : Vec3 := ⟨400, 400, 400⟩

/-- Model of the Particle component: charge in elementary charges, mass
in electronvolts. -/
structure Particle where
  charge : ℝ
  mass : ℝ

/-- Model of the Mass component, the tuple struct Mass(f32) holding the
effective mass. -/
structure Mass where
  val : ℝ

/-- Model of the Velocity component, the tuple struct Velocity(Vec3). -/
structure Velocity where
  val : Vec3

/-- Model of the translation part of the bevy Transform component, the
only part the simulation core reads or writes. -/
structure Transform where
  translation : Vec3

namespace Particle

/-- Model of Particle::ELECTRON. -/
def ELECTRON : Particle := ⟨-1, 0.51099895⟩

/-- Model of Particle::UP_QUARK. -/
noncomputable def UP_QUARK : Particle := ⟨2 / 3, (3 + 1.8) / 2⟩

/-- Model of Particle::DOWN_QUARK. -/
noncomputable def DOWN_QUARK : Particle := ⟨-1 / 3, (5.8 + 4.1) / 2⟩

end Particle

/-- Model of the ParticleBundle struct, restricted to the components the
simulation core reads (the material_mesh_2d_bundle field only carries
rendering handles; of it only the transform is kept, since the systems
read and write it). -/
structure ParticleBundle where
  particle : Particle
  mass : Mass
  velocity : Velocity
  transform : Transform

namespace ParticleBundle

/-- Model of ParticleBundle::new: the bundle is built directly from the
arguments, with the Mass component initialised to particle.mass.  The
source constructor is total and performs no validation of any kind (the
visualisation argument carries only rendering handles and is omitted
here). -/
def new (particle : Particle) (transform : Transform) (velocity : Velocity) :
    ParticleBundle :=
  ⟨particle, ⟨particle.mass⟩, velocity, transform⟩

/-- Model of ParticleBundle::electron. -/
def electron (transform : Transform) (velocity : Velocity) : ParticleBundle :=
  new Particle.ELECTRON transform velocity

/-- Model of ParticleBundle::up_quark. -/
noncomputable def up_quark (transform : Transform) (velocity : Velocity) : ParticleBundle :=
  new Particle.UP_QUARK transform velocity

/-- Model of ParticleBundle::down_quark. -/
noncomputable def down_quark (transform : Transform) (velocity : Velocity) : ParticleBundle :=
  new Particle.DOWN_QUARK transform velocity

end ParticleBundle

/-- Per-entity record of the components the four systems of particle.rs
query: Particle, Mass, Transform and Velocity.  A simulation store is a
list of these records. -/
structure ParticleState where
  particle : Particle
  mass : Mass
  transform : Transform
  velocity : Velocity

/-- The per-pair body of the map inside calculate_impulse, verbatim from
the source: diff = t1 - t2, dist_squared = diff.length_squared(), zero
when dist_squared <= f32::EPSILON, otherwise
(diff / dist_squared.sqrt()) * p2.charge / (dist_squared + 1.0). -/
noncomputable def force_contribution (t1 : Vec3) (p2 : Particle) (t2 : Vec3) :
    Vec3 :=
  let diff := t1 - t2
  let dist_squared := diff.length_squared
  if dist_squared ≤ f32_EPSILON then Vec3.ZERO
  else
    let dir := diff / Real.sqrt dist_squared
    dir * p2.charge / (dist_squared + 1)

/-- Model of calculate_impulse from particle.rs: sums the per-pair
contributions over the snapshot into semi_force, then returns
semi_force * (properties.charge / mass.0 * delta_time). -/
noncomputable def calculate_impulse (particles : List (Particle × Transform))
    (properties : Particle) (mass : Mass) (translation : Vec3)
    (delta_time : ℝ) : Vec3 :=
  let t1 := translation
  let semi_force :=
    (particles.map fun p2 => force_contribution t1 p2.1 p2.2.translation).sum
  semi_force * (properties.charge / mass.val * delta_time)

/-- Model of the update system (the ForceIntegrator): collects the
snapshot of (Particle, Transform) pairs of all particles, then adds to
the velocity of every particle the impulse computed by calculate_impulse
from that snapshot and from the properties, effective mass, translation
and the elapsed time of the tick. -/
noncomputable def update (store : List ParticleState) (delta_seconds : ℝ) :
    List ParticleState :=
  let particles := store.map fun s => (s.particle, s.transform)
  store.map fun s =>
    { s with
      velocity := ⟨s.velocity.val +
        calculate_impulse particles s.particle s.mass s.transform.translation
          delta_seconds⟩ }

/-- Model of the velocity_update system (the MotionIntegrator):
transform.translation += velocity.0, independently per particle. -/
noncomputable def velocity_update (store : List ParticleState) :
    List ParticleState :=
  store.map fun s =>
    { s with transform := ⟨s.transform.translation + s.velocity.val⟩ }

/-- Per-axis body of loop_translation_update, verbatim from the source:
if c > dim then -dim, else if c < -dim then dim, else c unchanged.  The
source repeats this code once for x and once for y. -/
noncomputable def wrap_axis (dim c : ℝ) : ℝ :=
  if c > dim then -dim else if c < -dim then dim else c

/-- Per-transform body of loop_translation_update: dimensions = SIZE.xy(),
the x and y coordinates are wrapped against dimensions.x and dimensions.y,
and z is left untouched. -/
noncomputable def loop_translation_transform (p : Vec3) : Vec3 :=
  ⟨wrap_axis SIZE.x p.x, wrap_axis SIZE.y p.y, p.z⟩

/-- Model of the loop_translation_update system (BoundaryWrap): applies
loop_translation_transform to the translation of every particle. -/
noncomputable def loop_translation_update (store : List ParticleState) :
    List ParticleState :=
  store.map fun s =>
    { s with transform := ⟨loop_translation_transform s.transform.translation⟩ }

/-- Model of the mass_update system (the MassUpdater):
mass.0 = particle.mass + velocity.0.length(), independently per
particle. -/
noncomputable def mass_update (store : List ParticleState) :
    List ParticleState :=
  store.map fun s => { s with mass := ⟨s.particle.mass + s.velocity.val.length⟩ }

/-- Spec-side per-pair contribution, written from the words of the spec:
contribute normalize(diff) * q_j / (distSq + 1), and the zero vector when
distSq is at most machine epsilon.  normalize(diff) is diff divided by
its Euclidean length. -/
noncomputable def contributionSpec (ti : Vec3) (qj : ℝ) (tj : Vec3) : Vec3 :=
  let diff := ti - tj
  let distSq := diff.length_squared
  if distSq ≤ f32_EPSILON then Vec3.ZERO
  else (diff / diff.length) * qj / (distSq + 1)

/-- Spec-side semiForce, written from the words of the spec: the sum over
every particle j in the snapshot of contributionSpec. -/
noncomputable def semiForceSpec (snapshot : List (Particle × Transform))
    (ti : Vec3) : Vec3 :=
  (snapshot.map fun pj => contributionSpec ti pj.1.charge pj.2.translation).sum

theorem Vec3.add_x (a b : Vec3) : (a + b).x = a.x + b.x := rfl

theorem Vec3.add_y (a b : Vec3) : (a + b).y = a.y + b.y := rfl

theorem Vec3.add_z (a b : Vec3) : (a + b).z = a.z + b.z := rfl

theorem Vec3.sub_x (a b : Vec3) : (a - b).x = a.x - b.x := rfl

theorem Vec3.sub_y (a b : Vec3) : (a - b).y = a.y - b.y := rfl

theorem Vec3.sub_z (a b : Vec3) : (a - b).z = a.z - b.z := rfl

theorem Vec3.neg_x (a : Vec3) : (-a).x = -a.x := rfl

theorem Vec3.neg_y (a : Vec3) : (-a).y = -a.y := rfl

theorem Vec3.neg_z (a : Vec3) : (-a).z = -a.z := rfl

theorem Vec3.mul_x (v : Vec3) (s : ℝ) : (v * s).x = v.x * s := rfl

theorem Vec3.mul_y (v : Vec3) (s : ℝ) : (v * s).y = v.y * s := rfl

theorem Vec3.mul_z (v : Vec3) (s : ℝ) : (v * s).z = v.z * s := rfl

theorem Vec3.div_x (v : Vec3) (s : ℝ) : (v / s).x = v.x / s := rfl

theorem Vec3.div_y (v : Vec3) (s : ℝ) : (v / s).y = v.y / s := rfl

theorem Vec3.div_z (v : Vec3) (s : ℝ) : (v / s).z = v.z / s := rfl

theorem Vec3.zero_x : (0 : Vec3).x = 0 := rfl

theorem Vec3.zero_y : (0 : Vec3).y = 0 := rfl

theorem Vec3.zero_z : (0 : Vec3).z = 0 := rfl

theorem Vec3.ZERO_eq : Vec3.ZERO = 0 := rfl

theorem wrap_axis_bounds (c : ℝ) :
    -400 ≤ wrap_axis 400 c ∧ wrap_axis 400 c ≤ 400 := by
  unfold wrap_axis
  split_ifs <;> constructor <;> linarith

theorem wrap_axis_high (c : ℝ) (h : c > 400) : wrap_axis 400 c = -400 := by
  unfold wrap_axis
  rw [if_pos h]

theorem wrap_axis_low (c : ℝ) (h : c < -400) : wrap_axis 400 c = 400 := by
  unfold wrap_axis
  rw [if_neg (by linarith), if_pos h]

theorem wrap_axis_id (c : ℝ) (h1 : -400 ≤ c) (h2 : c ≤ 400) :
    wrap_axis 400 c = c := by
  unfold wrap_axis
  rw [if_neg (by linarith), if_neg (by linarith)]

theorem loop_translation_transform_x (p : Vec3) :
    (loop_translation_transform p).x = wrap_axis 400 p.x := rfl

theorem loop_translation_transform_y (p : Vec3) :
    (loop_translation_transform p).y = wrap_axis 400 p.y := rfl

theorem loop_translation_transform_z (p : Vec3) :
    (loop_translation_transform p).z = p.z := rfl

theorem wrap_axis_idem (c : ℝ) :
    wrap_axis 400 (wrap_axis 400 c) = wrap_axis 400 c := by
  unfold wrap_axis
  split_ifs <;> linarith

theorem SIZE_x : SIZE.x = 400 := rfl

theorem SIZE_y : SIZE.y = 400 := rfl

theorem loop_translation_transform_idem (p : Vec3) :
    loop_translation_transform (loop_translation_transform p) =
      loop_translation_transform p := by
  unfold loop_translation_transform
  rw [SIZE_x, SIZE_y]
  exact Vec3.ext (wrap_axis_idem p.x) (wrap_axis_idem p.y) rfl

/-- C3: one MotionIntegrator pass sets the position of every particle to
position + velocity exactly, with no additional multiplication by dt at
this stage, and the new record is a function of the old record of that
particle alone. -/
theorem motionIntegrator_adds_velocity (store : List ParticleState)
    (i : Fin store.length) :
    (velocity_update store).get ⟨i.1, by simp [velocity_update]⟩ =
      { store.get i with
        transform :=
          ⟨(store.get i).transform.translation + (store.get i).velocity.val⟩ } := by
  simp [velocity_update, List.getElem_map]

/-- C4: BoundaryWrap acts independently on the x and y axes against the
half-extents SIZE.x and SIZE.y: a coordinate above the half-extent is set
to the negated half-extent, one below the negated half-extent is set to
the half-extent, and one in between is unchanged; in particular the
position with x = SIZE.x + 5 ends with x = -SIZE.x exactly, and the
position with x = SIZE.x - 5 is unchanged. -/
theorem boundaryWrap_axis_rule (p : Vec3) :
    (p.x > SIZE.x → (loop_translation_transform p).x = -SIZE.x) ∧
    (p.x < -SIZE.x → (loop_translation_transform p).x = SIZE.x) ∧
    (-SIZE.x ≤ p.x → p.x ≤ SIZE.x → (loop_translation_transform p).x = p.x) ∧
    (p.y > SIZE.y → (loop_translation_transform p).y = -SIZE.y) ∧
    (p.y < -SIZE.y → (loop_translation_transform p).y = SIZE.y) ∧
    (-SIZE.y ≤ p.y → p.y ≤ SIZE.y → (loop_translation_transform p).y = p.y) ∧
    (loop_translation_transform ⟨SIZE.x + 5, 0, 0⟩).x = -SIZE.x ∧
    loop_translation_transform ⟨SIZE.x - 5, 0, 0⟩ = ⟨SIZE.x - 5, 0, 0⟩ := by
  rw [SIZE_x, SIZE_y]
  refine ⟨?_, ?_, ?_, ?_, ?_, ?_, ?_, ?_⟩
  · intro h
    rw [loop_translation_transform_x, wrap_axis_high p.x h]
  · intro h
    rw [loop_translation_transform_x, wrap_axis_low p.x h]
  · intro h1 h2
    rw [loop_translation_transform_x, wrap_axis_id p.x h1 h2]
  · intro h
    rw [loop_translation_transform_y, wrap_axis_high p.y h]
  · intro h
    rw [loop_translation_transform_y, wrap_axis_low p.y h]
  · intro h1 h2
    rw [loop_translation_transform_y, wrap_axis_id p.y h1 h2]
  · rw [loop_translation_transform_x]
    show wrap_axis 400 (400 + 5) = -400
    rw [wrap_axis_high (400 + 5) (by norm_num)]
  · refine Vec3.ext ?_ ?_ rfl
    · rw [loop_translation_transform_x]
      show wrap_axis 400 (400 - 5) = 400 - 5
      rw [wrap_axis_id (400 - 5) (by norm_num) (by norm_num)]
    · rw [loop_translation_transform_y]
      show wrap_axis 400 0 = 0
      rw [wrap_axis_id 0 (by norm_num) (by norm_num)]

/-- C4 witness: at the concrete position with x = 405 and y = -405 the
wrapped x coordinate is -SIZE.x and the wrapped y coordinate is
SIZE.y. -/
theorem boundaryWrap_axis_rule_witness :
    (loop_translation_transform ⟨405, -405, 7⟩).x = -SIZE.x ∧
    (loop_translation_transform ⟨405, -405, 7⟩).y = SIZE.y := by
  obtain ⟨h1, h2, h3, h4, h5, h6, h7, h8⟩ := boundaryWrap_axis_rule ⟨405, -405, 7⟩
  exact ⟨h1 (by rw [SIZE_x]; norm_num), h5 (by rw [SIZE_y]; norm_num)⟩

/-- C5: after the BoundaryWrap stage runs, the x and y coordinates of
the position of every particle lie within the interval from -SIZE to
SIZE,
where SIZE is the fixed per-axis half-extent 400. -/
theorem boundaryWrap_bounds (store : List ParticleState)
    (i : Fin (loop_translation_update store).length) :
    -400 ≤ ((loop_translation_update store).get i).transform.translation.x ∧
    ((loop_translation_update store).get i).transform.translation.x ≤ 400 ∧
    -400 ≤ ((loop_translation_update store).get i).transform.translation.y ∧
    ((loop_translation_update store).get i).transform.translation.y ≤ 400 := by
  obtain ⟨i, hi⟩ := i
  simp only [loop_translation_update, List.length_map] at hi
  simp only [loop_translation_update, List.get_eq_getElem, List.getElem_map]
  rw [loop_translation_transform_x, loop_translation_transform_y]
  obtain ⟨hx1, hx2⟩ := wrap_axis_bounds (store[i].transform.translation.x)
  obtain ⟨hy1, hy2⟩ := wrap_axis_bounds (store[i].transform.translation.y)
  exact ⟨hx1, hx2, hy1, hy2⟩

/-- C10: the BoundaryWrap stage is idempotent: applying
loop_translation_update twice to any store yields exactly the same
result as applying it once, because the boundary values -SIZE and SIZE
are never re-wrapped (the comparisons are strict). -/
theorem boundaryWrap_idempotent (store : List ParticleState) :
    loop_translation_update (loop_translation_update store) =
      loop_translation_update store := by
  unfold loop_translation_update
  rw [List.map_map]
  refine List.map_congr_left fun s _ => ?_
  show ({ s with
      transform := ⟨loop_translation_transform
        (loop_translation_transform s.transform.translation)⟩ } : ParticleState) = _
  rw [loop_translation_transform_idem]

theorem Vec3.length_eq_sqrt_sq (v : Vec3) :
    v.length = Real.sqrt (v.x ^ 2 + v.y ^ 2 + v.z ^ 2) := by
  unfold Vec3.length Vec3.length_squared
  congr 1
  ring

/-- C6: one MassUpdater pass sets the effective mass of every particle to
the
species rest mass plus the Euclidean norm of the 3-vector velocity; in
particular a particle with rest mass 1 and velocity (3, 4, 0) ends with
effective mass 6. -/
theorem massUpdater_formula (store : List ParticleState) :
    mass_update store = store.map (fun s =>
      { s with
        mass := ⟨s.particle.mass +
          Real.sqrt (s.velocity.val.x ^ 2 + s.velocity.val.y ^ 2 +
            s.velocity.val.z ^ 2)⟩ }) ∧
    mass_update [⟨⟨-1, 1⟩, ⟨1⟩, ⟨⟨0, 0, 0⟩⟩, ⟨⟨3, 4, 0⟩⟩⟩] =
      [⟨⟨-1, 1⟩, ⟨6⟩, ⟨⟨0, 0, 0⟩⟩, ⟨⟨3, 4, 0⟩⟩⟩] := by
  constructor
  · unfold mass_update
    refine List.map_congr_left fun s _ => ?_
    rw [Vec3.length_eq_sqrt_sq]
  · unfold mass_update
    simp only [List.map_cons, List.map_nil]
    have h5 : (Vec3.mk 3 4 0).length = 5 := by
      rw [Vec3.length_eq_sqrt_sq]
      show Real.sqrt ((3:ℝ) ^ 2 + 4 ^ 2 + 0 ^ 2) = 5
      rw [show (3:ℝ) ^ 2 + 4 ^ 2 + 0 ^ 2 = 5 ^ 2 by norm_num,
        Real.sqrt_sq (by norm_num : (0:ℝ) ≤ 5)]
    rw [h5]
    norm_num

/-- C1: one ForceIntegrator pass updates the velocity of every particle to
velocity + semiForce * (q / m) * dt, where semiForce is the spec-side
sum over every particle j of the snapshot of the regularized Coulomb
contribution (zero when the epsilon guard fires), q and m are the
charge and effective mass of the particle, and dt is the externally
supplied
elapsed time of the tick. -/
theorem forceIntegrator_formula (store : List ParticleState) (dt : ℝ) :
    update store dt = store.map fun s =>
      { s with
        velocity := ⟨s.velocity.val +
          semiForceSpec (store.map fun s2 => (s2.particle, s2.transform))
              s.transform.translation * (s.particle.charge / s.mass.val) *
            dt⟩ } := by
  have h1 : ∀ t : Vec3,
      semiForceSpec (store.map fun s2 => (s2.particle, s2.transform)) t =
        ((store.map fun s2 => (s2.particle, s2.transform)).map fun p2 =>
          force_contribution t p2.1 p2.2.translation).sum := fun _ => rfl
  have hassoc : ∀ (S : Vec3) (a b c : ℝ), S * (a / b * c) = S * (a / b) * c :=
    fun S a b c =>
      Vec3.ext (mul_assoc S.x (a / b) c).symm (mul_assoc S.y (a / b) c).symm
        (mul_assoc S.z (a / b) c).symm
  simp only [update, calculate_impulse]
  refine List.map_congr_left fun s _ => ?_
  rw [h1 s.transform.translation, hassoc]

/-- C2: every pair of particles whose squared distance is at most the
machine epsilon of the scalar type contributes exactly the zero vector
to the force sum, so coincident particles and the self-pair exert no
force. -/
theorem epsilonGuard_zero (t1 t2 : Vec3) (p2 : Particle)
    (h : (t1 - t2).length_squared ≤ f32_EPSILON) :
    force_contribution t1 p2 t2 = Vec3.ZERO := by
  unfold force_contribution
  rw [if_pos h]

/-- C2 witness: two particles at the identical concrete position
(1, 2, 3) contribute the zero vector. -/
theorem epsilonGuard_zero_witness :
    force_contribution ⟨1, 2, 3⟩ ⟨-1, 0.51099895⟩ ⟨1, 2, 3⟩ = Vec3.ZERO :=
  epsilonGuard_zero ⟨1, 2, 3⟩ ⟨1, 2, 3⟩ ⟨-1, 0.51099895⟩ (by
    unfold Vec3.length_squared f32_EPSILON
    norm_num [Vec3.sub_x, Vec3.sub_y, Vec3.sub_z])

theorem Vec3.ZERO_x : Vec3.ZERO.x = 0 := rfl

theorem Vec3.ZERO_y : Vec3.ZERO.y = 0 := rfl

theorem Vec3.ZERO_z : Vec3.ZERO.z = 0 := rfl

theorem sub_self_length_squared (t : Vec3) : (t - t).length_squared = 0 := by
  unfold Vec3.length_squared
  rw [Vec3.sub_x, Vec3.sub_y, Vec3.sub_z]
  ring

theorem force_contribution_self (t : Vec3) (p : Particle) :
    force_contribution t p t = Vec3.ZERO := by
  unfold force_contribution
  rw [if_pos]
  rw [sub_self_length_squared]
  unfold f32_EPSILON
  norm_num

theorem force_contribution_antisym (q mr mr2 : ℝ) (t : Vec3) :
    force_contribution (-t) ⟨q, mr⟩ t = force_contribution t ⟨-q, mr2⟩ (-t) := by
  have hls : (-t - t).length_squared = (t - -t).length_squared := by
    unfold Vec3.length_squared
    rw [Vec3.sub_x, Vec3.sub_y, Vec3.sub_z, Vec3.sub_x, Vec3.sub_y, Vec3.sub_z,
      Vec3.neg_x, Vec3.neg_y, Vec3.neg_z]
    ring
  simp only [force_contribution]
  rw [hls]
  by_cases h : (t - -t).length_squared ≤ f32_EPSILON
  · rw [if_pos h, if_pos h]
  · rw [if_neg h, if_neg h]
    refine Vec3.ext ?_ ?_ ?_ <;>
      simp only [Vec3.div_x, Vec3.div_y, Vec3.div_z, Vec3.mul_x, Vec3.mul_y,
        Vec3.mul_z, Vec3.sub_x, Vec3.sub_y, Vec3.sub_z, Vec3.neg_x, Vec3.neg_y,
        Vec3.neg_z] <;> ring

/-- C7 counterexample: the source constructor performs no validation, so
building a bundle from a particle with rest mass -1 (which is not
positive) succeeds and returns the bundle unchanged, with the Mass
component initialised to -1; no InvalidSpecies error path exists. -/
theorem particleBundle_new_nonpositive_cex :
    ParticleBundle.new ⟨1, -1⟩ ⟨⟨0, 0, 0⟩⟩ ⟨⟨0, 0, 0⟩⟩ =
      ⟨⟨1, -1⟩, ⟨-1⟩, ⟨⟨0, 0, 0⟩⟩, ⟨⟨0, 0, 0⟩⟩⟩ := rfl

/-- C7 amended: particle construction is total and unconditional: even
for a particle with non-positive rest mass it succeeds, returning the
bundle of the given components with Mass initialised to the rest
mass. -/
theorem particleBundle_new_total (p : Particle) (t : Transform) (v : Velocity)
    (h : p.mass ≤ 0) :
    ParticleBundle.new p t v = ⟨p, ⟨p.mass⟩, v, t⟩ := rfl

/-- C7 amended witness: construction at the concrete rest mass -2
succeeds. -/
theorem particleBundle_new_total_witness :
    ParticleBundle.new ⟨1, -2⟩ ⟨⟨0, 0, 0⟩⟩ ⟨⟨0, 0, 0⟩⟩ =
      ⟨⟨1, -2⟩, ⟨-2⟩, ⟨⟨0, 0, 0⟩⟩, ⟨⟨0, 0, 0⟩⟩⟩ :=
  particleBundle_new_total ⟨1, -2⟩ ⟨⟨0, 0, 0⟩⟩ ⟨⟨0, 0, 0⟩⟩
    (by show (-2 : ℝ) ≤ 0; norm_num)

/-- C8 amended: BoundaryWrap never modifies the z coordinate of any
position, but the MotionIntegrator adds the z velocity of a particle to
its
z position, so position.z does change whenever velocity.z is nonzero
(and the force pass can make velocity.z nonzero, see the
counterexample). -/
theorem positionZ_stage_effects (store : List ParticleState) :
    ((loop_translation_update store).map fun s => s.transform.translation.z) =
      (store.map fun s => s.transform.translation.z) ∧
    ((velocity_update store).map fun s => s.transform.translation.z) =
      (store.map fun s =>
        s.transform.translation.z + s.velocity.val.z) := by
  constructor
  · unfold loop_translation_update
    rw [List.map_map]
    rfl
  · unfold velocity_update
    rw [List.map_map]
    rfl

/-- C8 counterexample: two particles created with zero velocity at the
positions (0, 0, 0) and (0, 0, -1); one ForceIntegrator pass followed by
one MotionIntegrator pass changes position.z of the first particle from 0
to 1/2 and of the second from -1 to -3/2, so position.z is not fixed over
the pipeline. -/
theorem positionZ_changes_cex :
    ((velocity_update (update
        [⟨⟨1, 1⟩, ⟨1⟩, ⟨⟨0, 0, 0⟩⟩, ⟨Vec3.ZERO⟩⟩,
         ⟨⟨1, 1⟩, ⟨1⟩, ⟨⟨0, 0, -1⟩⟩, ⟨Vec3.ZERO⟩⟩] 1)).map
      fun s => s.transform.translation.z) = [1 / 2, -(3 / 2)] := by
  have hd1 : ((⟨0, 0, 0⟩ : Vec3) - ⟨0, 0, -1⟩) = ⟨0, 0, 1⟩ := by
    ext <;> simp [Vec3.sub_x, Vec3.sub_y, Vec3.sub_z]
  have hd2 : ((⟨0, 0, -1⟩ : Vec3) - ⟨0, 0, 0⟩) = ⟨0, 0, -1⟩ := by
    ext <;> simp [Vec3.sub_x, Vec3.sub_y, Vec3.sub_z]
  have hls1 : (⟨0, 0, 1⟩ : Vec3).length_squared = 1 := by
    unfold Vec3.length_squared
    norm_num
  have hls2 : (⟨0, 0, -1⟩ : Vec3).length_squared = 1 := by
    unfold Vec3.length_squared
    norm_num
  have hguard : ¬ ((1 : ℝ) ≤ f32_EPSILON) := by
    unfold f32_EPSILON
    norm_num
  have e2 : force_contribution ⟨0, 0, 0⟩ ⟨1, 1⟩ ⟨0, 0, -1⟩ = ⟨0, 0, 1 / 2⟩ := by
    simp only [force_contribution]
    rw [hd1, hls1, if_neg hguard, Real.sqrt_one]
    ext <;> simp [Vec3.mul_x, Vec3.mul_y, Vec3.mul_z, Vec3.div_x, Vec3.div_y,
      Vec3.div_z] <;> norm_num
  have e3 : force_contribution ⟨0, 0, -1⟩ ⟨1, 1⟩ ⟨0, 0, 0⟩ = ⟨0, 0, -(1 / 2)⟩ := by
    simp only [force_contribution]
    rw [hd2, hls2, if_neg hguard, Real.sqrt_one]
    ext <;> simp [Vec3.mul_x, Vec3.mul_y, Vec3.mul_z, Vec3.div_x, Vec3.div_y,
      Vec3.div_z] <;> norm_num
  simp only [velocity_update, update, calculate_impulse, List.map_cons,
    List.map_nil, List.sum_cons, List.sum_nil]
  rw [force_contribution_self, force_contribution_self, e2, e3]
  simp only [List.map_cons, List.map_nil, Vec3.add_z, Vec3.mul_z, Vec3.ZERO_z,
    Vec3.zero_z]
  norm_num

/-- C9: two particles of opposite charge and equal mass placed
symmetrically about the origin with zero initial velocity receive equal
and opposite impulses from one ForceIntegrator pass, so their resulting
velocity vectors are exact negatives of each other. -/
theorem symmetricPair_momentum_null (q mr m dt : ℝ) (t : Vec3) :
    ∃ w : Vec3,
      ((update [⟨⟨q, mr⟩, ⟨m⟩, ⟨t⟩, ⟨Vec3.ZERO⟩⟩,
                ⟨⟨-q, mr⟩, ⟨m⟩, ⟨-t⟩, ⟨Vec3.ZERO⟩⟩] dt).map
          fun s => s.velocity.val) = [w, -w] := by
  refine ⟨Vec3.ZERO + calculate_impulse
      [(⟨q, mr⟩, ⟨t⟩), (⟨-q, mr⟩, ⟨-t⟩)] ⟨q, mr⟩ ⟨m⟩ t dt, ?_⟩
  have key : calculate_impulse
        [(⟨q, mr⟩, ⟨t⟩), (⟨-q, mr⟩, ⟨-t⟩)] ⟨-q, mr⟩ ⟨m⟩ (-t) dt =
      -(calculate_impulse
        [(⟨q, mr⟩, ⟨t⟩), (⟨-q, mr⟩, ⟨-t⟩)] ⟨q, mr⟩ ⟨m⟩ t dt) := by
    simp only [calculate_impulse, List.map_cons, List.map_nil, List.sum_cons,
      List.sum_nil]
    rw [force_contribution_self, force_contribution_self,
      force_contribution_antisym q mr mr t]
    refine Vec3.ext ?_ ?_ ?_ <;>
      simp only [Vec3.mul_x, Vec3.mul_y, Vec3.mul_z, Vec3.add_x, Vec3.add_y,
        Vec3.add_z, Vec3.neg_x, Vec3.neg_y, Vec3.neg_z, Vec3.ZERO_x,
        Vec3.ZERO_y, Vec3.ZERO_z, Vec3.zero_x, Vec3.zero_y, Vec3.zero_z] <;>
      ring
  simp only [update, List.map_cons, List.map_nil]
  rw [key]
  congr 1
  congr 1
  refine Vec3.ext ?_ ?_ ?_ <;>
    simp only [Vec3.add_x, Vec3.add_y, Vec3.add_z, Vec3.neg_x, Vec3.neg_y,
      Vec3.neg_z, Vec3.ZERO_x, Vec3.ZERO_y, Vec3.ZERO_z] <;>
    ring

end Fysiks
